import Mathlib

/-!
Shallow embedding of the interactive SVG viewer of the LZ-Diagram frontend
(src/frontend/src/components/InteractiveSVGViewer.tsx), together with proofs
about its pan/zoom/mount behaviour.

The component keeps four pieces of React state: `scale`, `position`,
`isDragging` and `dragStart`.  All numeric values are modelled as exact
rationals; the one place where JavaScript number semantics matters — the
divisions in `fitToContainer`, which can divide by zero — is modelled with an
explicit JS-number type `JSNum` carrying the Infinity and NaN cases.
-/

/-- A 2D point (client coordinates or pixel offsets), as used for
`position` and `dragStart` in the component. -/
structure Pt where
  x : ℚ
  y : ℚ
deriving DecidableEq, Repr

/-- JavaScript number values that can arise in the viewer: finite values
(modelled exactly as rationals), positive Infinity, and NaN.  Negative
Infinity cannot arise because every division in the source has nonnegative
operands (bounding-rect widths and heights). -/
inductive JSNum where
  | fin (q : ℚ)
  | inf
  | nan
deriving DecidableEq, Repr

/-- Math.min on two JS numbers: NaN-propagating, Infinity is the top
element. -/
def jsMin : JSNum → JSNum → JSNum
  | .nan, _ => .nan
  | _, .nan => .nan
  | .inf, b => b
  | a, .inf => a
  | .fin a, .fin b => .fin (if a ≤ b then a else b)

/-- Math.max on two JS numbers: NaN-propagating, Infinity is the top
element. -/
def jsMax : JSNum → JSNum → JSNum
  | .nan, _ => .nan
  | _, .nan => .nan
  | .inf, _ => .inf
  | _, .inf => .inf
  | .fin a, .fin b => .fin (if a ≤ b then b else a)

/-- Multiplication of a JS number by a positive finite constant (the source
only ever multiplies the scale by the literals 0.9, 1.1, 1.2 and 0.8): NaN
propagates, Infinity times a positive constant is Infinity. -/
def jsMulPos : JSNum → ℚ → JSNum
  | .nan, _ => .nan
  | .inf, _ => .inf
  | .fin a, c => .fin (a * c)

/-- JavaScript division of two nonnegative finite numbers (bounding-rect
widths and heights are always nonnegative): division by zero yields
Infinity for a nonzero numerator and NaN for 0/0. -/
def jsDivNN (a b : ℚ) : JSNum :=
  if b = 0 then (if a = 0 then .nan else .inf) else .fin (a / b)

/-- The React state of InteractiveSVGViewer: `scale` and `position` form
the ViewportState (zoom factor and pan offset), `isDragging` and
`dragStart` the DragSession bookkeeping.  An active DragSession is
`isDragging = true`; `dragStart` records pointer-down position minus the
offset at pointer-down. -/
structure ViewerState where
  scale : JSNum
  position : Pt
  isDragging : Bool
  dragStart : Pt
deriving DecidableEq, Repr

/-- Initial state: `useState(1)`, `useState({x:0,y:0})`, `useState(false)`,
`useState({x:0,y:0})`. -/
def initViewerState : ViewerState :=
  { scale := .fin 1, position := ⟨0, 0⟩, isDragging := false, dragStart := ⟨0, 0⟩ }

/-- handleMouseDown (beginDrag): sets `isDragging` and records
`dragStart = (e.clientX - position.x, e.clientY - position.y)`.  Note the
source has no guard against an already-active drag. -/
def handleMouseDown (e : Pt) (s : ViewerState) : ViewerState :=
  { s with isDragging := true, dragStart := ⟨e.x - s.position.x, e.y - s.position.y⟩ }

/-- handleMouseMove (continueDrag): returns unchanged when not dragging,
otherwise sets `position = (e.clientX - dragStart.x, e.clientY - dragStart.y)`
and re-applies the transform. -/
def handleMouseMove (e : Pt) (s : ViewerState) : ViewerState :=
  if s.isDragging then
    { s with position := ⟨e.x - s.dragStart.x, e.y - s.dragStart.y⟩ }
  else s

/-- handleMouseUp (endDrag): clears `isDragging`. -/
def handleMouseUp (s : ViewerState) : ViewerState :=
  { s with isDragging := false }

/-- handleWheel (zoom): `delta = deltaY > 0 ? 0.9 : 1.1`, then
`scale = Math.max(0.1, Math.min(3, scale * delta))`. -/
def handleWheel (deltaY : ℚ) (s : ViewerState) : ViewerState :=
  let delta : ℚ := if deltaY > 0 then 9/10 else 11/10
  { s with scale := jsMax (.fin (1/10)) (jsMin (.fin 3) (jsMulPos s.scale delta)) }

/-- zoomIn: `scale = Math.min(3, scale * 1.2)`. -/
def zoomIn (s : ViewerState) : ViewerState :=
  { s with scale := jsMin (.fin 3) (jsMulPos s.scale (12/10)) }

/-- zoomOut: `scale = Math.max(0.1, scale * 0.8)`. -/
def zoomOut (s : ViewerState) : ViewerState :=
  { s with scale := jsMax (.fin (1/10)) (jsMulPos s.scale (8/10)) }

/-- resetView: `scale = 1`, `position = (0,0)`. -/
def resetView (s : ViewerState) : ViewerState :=
  { s with scale := .fin 1, position := ⟨0, 0⟩ }

/-- A bounding rectangle as returned by getBoundingClientRect (widths and
heights are nonnegative). -/
structure Rect where
  width : ℚ
  height : ℚ
deriving DecidableEq, Repr

/-- fitToContainer: returns unchanged when either ref is null; otherwise
computes `scaleX = containerRect.width / svgRect.width`,
`scaleY = containerRect.height / svgRect.height`,
`newScale = Math.min(scaleX, scaleY, 1) * 0.9`, sets the scale to it and
resets the position to (0,0).  The source checks only that the two refs are
non-null; it does not check the rect dimensions, so the divisions follow
JavaScript semantics, and no clamping to [0.1, 3.0] is applied. -/
def fitToContainer (container svg : Option Rect) (s : ViewerState) : ViewerState :=
  match container, svg with
  | some c, some v =>
      let scaleX := jsDivNN c.width v.width
      let scaleY := jsDivNN c.height v.height
      let newScale := jsMulPos (jsMin (jsMin scaleX scaleY) (.fin 1)) (9/10)
      { s with scale := newScale, position := ⟨0, 0⟩ }
  | _, _ => s

/-- The three zoom operations a user can trigger: wheel events and the two
toolbar buttons. -/
inductive ZoomOp where
  | wheel (deltaY : ℚ)
  | zin
  | zout
deriving DecidableEq, Repr

/-- Apply one zoom operation to the state. -/
def applyZoomOp : ZoomOp → ViewerState → ViewerState
  | .wheel d => handleWheel d
  | .zin => zoomIn
  | .zout => zoomOut

/-- Apply a sequence of zoom operations left to right. -/
def applyZoomOps (ops : List ZoomOp) (s : ViewerState) : ViewerState :=
  ops.foldl (fun t op => applyZoomOp op t) s

/-- The scale invariant of the spec: a finite value in [0.1, 3.0]. -/
def scaleOK : JSNum → Prop
  | .fin q => 1/10 ≤ q ∧ q ≤ 3
  | _ => False

/-- What the display region shows after the mount effect and the component
render: the component-level placeholder text "No interactive diagram
available" (rendered when svgContent is empty), the untouched container
(effect returned early because the container ref was null), the inline
error paragraph "Error loading interactive diagram", or the mounted
diagram. -/
inductive MountDisplay where
  | placeholder
  | emptyBox
  | errorText
  | diagram
deriving DecidableEq, Repr

/-- The try-block of the mount effect: succeeds when the parsed document
root has tag name "svg", otherwise throws "Invalid SVG content" (caught by
the surrounding catch). -/
def mountTry (parsedTag : String) : Except String Unit :=
  if parsedTag = "svg" then .ok () else .error "Invalid SVG content"

/-- The mount step, combining the component render (empty content renders
the placeholder instead of the viewer) and the mount effect.  `parsedTag`
is the tag name of the document element produced by DOMParser on the
content, an external API and hence an input of the model.  The catch
branch replaces the container content with the inline error message and
touches no viewport state; on success, listeners are attached and
`fitToContainer` runs on the container and svg bounding rects.  The
function is total: the parse failure is confined by the try/catch and
never escapes. -/
def mountResult (content : String) (containerPresent : Bool) (parsedTag : String)
    (containerRect svgRect : Rect) (s : ViewerState) : MountDisplay × ViewerState :=
  if content = "" then (.placeholder, s)
  else if !containerPresent then (.emptyBox, s)
  else
    match mountTry parsedTag with
    | .ok _ => (.diagram, fitToContainer (some containerRect) (some svgRect) s)
    | .error _ => (.errorText, s)

/-- Root-level events attached by the mount effect. -/
def rootEvents : List String :=
  ["mousedown", "mousemove", "mouseup", "mouseleave", "wheel"]

/-- Events attached to every interactive sub-element (every element
matching the querySelectorAll of groups, rects, ellipses, polygons and
text nodes). -/
def subEvents : List String :=
  ["click", "mouseenter", "mouseleave"]

/-- The (element, event) listener registrations performed by the mount
effect: five on the root svg element, three on every interactive
sub-element.  Elements are identified by numbers: the root and the list of
sub-element identifiers. -/
def attachedListeners (root : ℕ) (subs : List ℕ) : List (ℕ × String) :=
  rootEvents.map (fun ev => (root, ev)) ++
    subs.flatMap (fun e => subEvents.map (fun ev => (e, ev)))

/-- The registrations removed by the effect cleanup: exactly the five
removeEventListener calls on the root element. -/
def removedListeners (root : ℕ) : List (ℕ × String) :=
  rootEvents.map (fun ev => (root, ev))

/-- The registrations still attached after the cleanup ran. -/
def residualListeners (root : ℕ) (subs : List ℕ) : List (ℕ × String) :=
  (attachedListeners root subs).filter (fun l => decide (l ∉ removedListeners root))

/-! ## Helper lemmas -/

lemma jsMin_fin (a b : ℚ) : jsMin (.fin a) (.fin b) = .fin (min a b) := by
  simp [jsMin, min_def]

lemma jsMax_fin (a b : ℚ) : jsMax (.fin a) (.fin b) = .fin (max a b) := by
  simp [jsMax, max_def]

lemma jsMulPos_fin (a c : ℚ) : jsMulPos (.fin a) c = .fin (a * c) := rfl

lemma scaleOK_fin {q : ℚ} : scaleOK (.fin q) ↔ 1/10 ≤ q ∧ q ≤ 3 := Iff.rfl

lemma scaleOK_elim {j : JSNum} (h : scaleOK j) : ∃ q, j = .fin q ∧ 1/10 ≤ q ∧ q ≤ 3 := by
  cases j with
  | fin q => exact ⟨q, rfl, h⟩
  | inf => cases h
  | nan => cases h

lemma scaleOK_handleWheel (d : ℚ) {s : ViewerState} (h : scaleOK s.scale) :
    scaleOK (handleWheel d s).scale := by
  obtain ⟨q, hq, h1, h2⟩ := scaleOK_elim h
  simp only [handleWheel, hq, jsMulPos_fin, jsMin_fin, jsMax_fin]
  exact ⟨le_max_left _ _, max_le (by norm_num) (min_le_left _ _)⟩

lemma scaleOK_zoomIn {s : ViewerState} (h : scaleOK s.scale) :
    scaleOK (zoomIn s).scale := by
  obtain ⟨q, hq, h1, h2⟩ := scaleOK_elim h
  simp only [zoomIn, hq, jsMulPos_fin, jsMin_fin]
  exact ⟨le_min (by norm_num) (by linarith), min_le_left _ _⟩

lemma scaleOK_zoomOut {s : ViewerState} (h : scaleOK s.scale) :
    scaleOK (zoomOut s).scale := by
  obtain ⟨q, hq, h1, h2⟩ := scaleOK_elim h
  simp only [zoomOut, hq, jsMulPos_fin, jsMax_fin]
  exact ⟨le_max_left _ _, max_le (by norm_num) (by linarith)⟩

lemma scaleOK_applyZoomOp (op : ZoomOp) {s : ViewerState} (h : scaleOK s.scale) :
    scaleOK (applyZoomOp op s).scale := by
  cases op with
  | wheel d => exact scaleOK_handleWheel d h
  | zin => exact scaleOK_zoomIn h
  | zout => exact scaleOK_zoomOut h

lemma scaleOK_applyZoomOps (ops : List ZoomOp) {s : ViewerState} (h : scaleOK s.scale) :
    scaleOK (applyZoomOps ops s).scale := by
  induction ops generalizing s with
  | nil => exact h
  | cons op rest ih => exact ih (scaleOK_applyZoomOp op h)

lemma handleMouseMove_scale (q : Pt) (s : ViewerState) :
    (handleMouseMove q s).scale = s.scale := by
  unfold handleMouseMove
  split <;> rfl

/-! ## Claims -/

/-- C1: for every finite sequence of zoom(wheelDelta), zoomIn and zoomOut
operations applied to a ViewportState whose scale is within [0.1, 3.0]
(in particular the initial scale 1), the scale after every operation
(i.e. after every prefix of the sequence) remains within [0.1, 3.0]. -/
theorem zoom_sequence_scale_in_range (s : ViewerState) (ops : List ZoomOp)
    (h : scaleOK s.scale) (n : ℕ) :
    scaleOK (applyZoomOps (ops.take n) s).scale :=
  scaleOK_applyZoomOps _ h

theorem zoom_sequence_scale_in_range_app :
    scaleOK (applyZoomOps ([ZoomOp.zin, ZoomOp.wheel 2, ZoomOp.zout].take 2)
      initViewerState).scale :=
  zoom_sequence_scale_in_range initViewerState [ZoomOp.zin, ZoomOp.wheel 2, ZoomOp.zout]
    (by norm_num [initViewerState, scaleOK]) 2

/-- C2 counterexample: fitToContainer with a 1×1 container and a 100×100
content box (both with positive dimensions) maps the in-range initial state
(scale 1) to scale 9/1000 = 0.009, outside [0.1, 3.0]: the fit operation of
the Viewport Controller does not preserve the clamp invariant, so the claim
that every operation keeps 0.1 ≤ scale ≤ 3.0 is false. -/
theorem fitToContainer_violates_scale_clamp :
    scaleOK initViewerState.scale ∧
    ¬ scaleOK (fitToContainer (some ⟨1, 1⟩) (some ⟨100, 100⟩) initViewerState).scale := by
  constructor
  · norm_num [initViewerState, scaleOK]
  · norm_num [fitToContainer, initViewerState, jsDivNN, jsMulPos, jsMin, scaleOK]

/-- C2 (amended): every Viewport Controller operation except fitToContainer
— zoom (wheel), zoomIn, zoomOut, beginDrag, continueDrag, endDrag and reset
— preserves the clamp invariant 0.1 ≤ scale ≤ 3.0; fitToContainer does not
clamp its result and can leave the range. -/
theorem nonfit_ops_preserve_scale_clamp (s : ViewerState) (d : ℚ) (p q : Pt)
    (h : scaleOK s.scale) :
    scaleOK (handleWheel d s).scale ∧ scaleOK (zoomIn s).scale ∧
    scaleOK (zoomOut s).scale ∧ scaleOK (handleMouseDown p s).scale ∧
    scaleOK (handleMouseMove q s).scale ∧ scaleOK (handleMouseUp s).scale ∧
    scaleOK (resetView s).scale := by
  refine ⟨scaleOK_handleWheel d h, scaleOK_zoomIn h, scaleOK_zoomOut h, h, ?_, h, ?_⟩
  · rw [handleMouseMove_scale]
    exact h
  · exact ⟨by norm_num, by norm_num⟩

theorem nonfit_ops_preserve_scale_clamp_app :
    scaleOK (handleWheel 1 initViewerState).scale :=
  (nonfit_ops_preserve_scale_clamp initViewerState 1 ⟨1, 2⟩ ⟨3, 4⟩
    (by norm_num [initViewerState, scaleOK])).1

/-- C9: zoomIn multiplies the scale by 1.2 and zoomOut by 0.8, clamped to
[0.1, 3.0]; each is a no-op on the scale at its bound (zoomIn at 3.0,
zoomOut at 0.1); and from scale 1, three zoomIn calls give 1.728. -/
theorem zoomIn_zoomOut_steps (s : ViewerState) (q : ℚ) :
    (s.scale = .fin q →
      (zoomIn s).scale = .fin (min 3 (q * (12/10))) ∧
      (zoomOut s).scale = .fin (max (1/10) (q * (8/10)))) ∧
    (s.scale = .fin 3 → (zoomIn s).scale = .fin 3) ∧
    (s.scale = .fin (1/10) → (zoomOut s).scale = .fin (1/10)) ∧
    (s.scale = .fin 1 → (zoomIn (zoomIn (zoomIn s))).scale = .fin (1728/1000)) := by
  refine ⟨fun h => ?_, fun h => ?_, fun h => ?_, fun h => ?_⟩
  · simp [zoomIn, zoomOut, h, jsMulPos_fin, jsMin_fin, jsMax_fin]
  · norm_num [zoomIn, h, jsMulPos, jsMin]
  · norm_num [zoomOut, h, jsMulPos, jsMax]
  · norm_num [zoomIn, h, jsMulPos, jsMin]

theorem zoomIn_zoomOut_steps_app :
    (zoomIn (zoomIn (zoomIn initViewerState))).scale = .fin (1728/1000) :=
  (zoomIn_zoomOut_steps initViewerState 1).2.2.2 rfl

/-- C10: frame conditions — the zoom operations (wheel zoom, zoomIn,
zoomOut) change only the scale and leave position, isDragging and dragStart
unchanged; the drag operations (beginDrag, continueDrag, endDrag) leave the
scale unchanged (and endDrag also leaves position and dragStart unchanged). -/
theorem zoom_drag_frame_conditions (s : ViewerState) (d : ℚ) (p q : Pt) :
    (handleWheel d s).position = s.position ∧
    (handleWheel d s).isDragging = s.isDragging ∧
    (handleWheel d s).dragStart = s.dragStart ∧
    (zoomIn s).position = s.position ∧
    (zoomIn s).isDragging = s.isDragging ∧
    (zoomIn s).dragStart = s.dragStart ∧
    (zoomOut s).position = s.position ∧
    (zoomOut s).isDragging = s.isDragging ∧
    (zoomOut s).dragStart = s.dragStart ∧
    (handleMouseDown p s).scale = s.scale ∧
    (handleMouseMove q s).scale = s.scale ∧
    (handleMouseUp s).scale = s.scale ∧
    (handleMouseUp s).position = s.position ∧
    (handleMouseUp s).dragStart = s.dragStart :=
  ⟨rfl, rfl, rfl, rfl, rfl, rfl, rfl, rfl, rfl, rfl,
    handleMouseMove_scale q s, rfl, rfl, rfl⟩

lemma fst_mem_removedListeners {root : ℕ} {l : ℕ × String}
    (h : l ∈ removedListeners root) : l.1 = root := by
  simp only [removedListeners, List.mem_map] at h
  obtain ⟨ev, _, rfl⟩ := h
  rfl

/-- C3 counterexample: mounting a root element (id 0) with one interactive
sub-element (id 1) and then running the effect cleanup leaves listeners
attached: the cleanup removes only the five root-level listeners, so the
claim that unmount removes every listener mount attached is false. -/
theorem cleanup_leaves_residual_listeners : residualListeners 0 [1] ≠ [] := by
  decide

/-- C3 (amended): the effect cleanup removes exactly the five root-level
mousedown/mousemove/mouseup/mouseleave/wheel listeners; the click,
mouseenter and mouseleave listeners attached to the interactive
sub-elements are not removed — they are exactly the residue left after
cleanup (the old subtree is only discarded wholesale when the next mount
clears the container's innerHTML). -/
theorem residual_listeners_eq_subelement_listeners (root : ℕ) (subs : List ℕ)
    (h : root ∉ subs) :
    residualListeners root subs =
      subs.flatMap (fun e => subEvents.map (fun ev => (e, ev))) := by
  unfold residualListeners attachedListeners
  rw [List.filter_append]
  have h1 : (rootEvents.map (fun ev => (root, ev))).filter
      (fun l => decide (l ∉ removedListeners root)) = [] := by
    rw [List.filter_eq_nil_iff]
    intro a ha
    have hmem : a ∈ removedListeners root := ha
    simp [hmem]
  have h2 : (subs.flatMap (fun e => subEvents.map (fun ev => (e, ev)))).filter
      (fun l => decide (l ∉ removedListeners root)) =
      subs.flatMap (fun e => subEvents.map (fun ev => (e, ev))) := by
    rw [List.filter_eq_self]
    intro a ha
    simp only [List.mem_flatMap, List.mem_map] at ha
    obtain ⟨e, he, ev, _, rfl⟩ := ha
    simp only [decide_eq_true_eq]
    intro hmem
    exact h (fst_mem_removedListeners hmem ▸ he)
  rw [h1, h2, List.nil_append]

theorem residual_listeners_eq_subelement_listeners_app :
    residualListeners 0 [1] =
      [1].flatMap (fun e => subEvents.map (fun ev => (e, ev))) :=
  residual_listeners_eq_subelement_listeners 0 [1] (by decide)

/-- C4: for every input whose content string is empty or whose parsed root
tag is not svg, the mount step shows a static inline message (the
component-level placeholder for empty content, the inline error paragraph
for a failed parse) and leaves the ViewportState unchanged; the parse
failure is confined by the try/catch (mountResult is a total function), so
no exception escapes the component.  The containerPresent = true hypothesis
in the parse-failure case reflects that React sets the container ref before
the effect runs whenever the viewer box is rendered (i.e. whenever the
content is non-empty). -/
theorem mount_failure_is_inert (content : String) (containerPresent : Bool)
    (parsedTag : String) (cr vr : Rect) (s : ViewerState)
    (h : content = "" ∨ (containerPresent = true ∧ parsedTag ≠ "svg")) :
    (mountResult content containerPresent parsedTag cr vr s).2 = s ∧
    ((mountResult content containerPresent parsedTag cr vr s).1 = .placeholder ∨
      (mountResult content containerPresent parsedTag cr vr s).1 = .errorText) := by
  rcases h with h | ⟨hc, ht⟩
  · subst h
    simp [mountResult]
  · subst hc
    by_cases he : content = ""
    · simp [mountResult, he]
    · simp [mountResult, mountTry, he, ht]

theorem mount_failure_is_inert_app :
    (mountResult "" true "svg" ⟨1, 1⟩ ⟨1, 1⟩ initViewerState).2 = initViewerState :=
  (mount_failure_is_inert "" true "svg" ⟨1, 1⟩ ⟨1, 1⟩ initViewerState (Or.inl rfl)).1

/-- C5: with a DragSession active right after beginDrag(pDown) from state s,
continueDrag(pMove) sets the offset to pMove − pDown + s.position
(pointer position minus drag origin plus the offset recorded at beginDrag)
and changes nothing else; with no active session — in particular right
after endDrag — continueDrag leaves the state entirely unchanged (and, being
a total function, does not fail). -/
theorem continueDrag_active_and_inactive (s : ViewerState) (pDown pMove : Pt) :
    ((handleMouseDown pDown s).isDragging = true ∧
      handleMouseMove pMove (handleMouseDown pDown s) =
        { handleMouseDown pDown s with
            position := ⟨pMove.x - pDown.x + s.position.x,
                         pMove.y - pDown.y + s.position.y⟩ }) ∧
    (s.isDragging = false → handleMouseMove pMove s = s) ∧
    handleMouseMove pMove (handleMouseUp s) = handleMouseUp s ∧
    (handleMouseUp s).isDragging = false := by
  refine ⟨⟨rfl, ?_⟩, fun h => ?_, ?_, rfl⟩
  · simp only [handleMouseDown, handleMouseMove, if_true]
    congr 1
    simp only [Pt.mk.injEq]
    exact ⟨by ring, by ring⟩
  · simp [handleMouseMove, h]
  · simp [handleMouseMove, handleMouseUp]

theorem continueDrag_active_and_inactive_app :
    handleMouseMove ⟨7, 8⟩ initViewerState = initViewerState :=
  (continueDrag_active_and_inactive initViewerState ⟨2, 3⟩ ⟨7, 8⟩).2.1 rfl

/-- C6: when container and content are both present with positive content
dimensions, fitToContainer sets the scale to
min(containerWidth/contentWidth, containerHeight/contentHeight, 1) × 0.9
and the offset to (0, 0); for a 500×500 container and a 1000×2000 content
box the scale is 225/1000 = 0.225. -/
theorem fitToContainer_formula (c v : Rect) (s : ViewerState)
    (hw : 0 < v.width) (hh : 0 < v.height) :
    (fitToContainer (some c) (some v) s).scale =
      .fin (min (min (c.width / v.width) (c.height / v.height)) 1 * (9/10)) ∧
    (fitToContainer (some c) (some v) s).position = ⟨0, 0⟩ ∧
    (fitToContainer (some ⟨500, 500⟩) (some ⟨1000, 2000⟩) s).scale =
      .fin (225/1000) := by
  refine ⟨?_, rfl, ?_⟩
  · simp [fitToContainer, jsDivNN, hw.ne', hh.ne', jsMulPos_fin, jsMin_fin]
  · norm_num [fitToContainer, jsDivNN, jsMulPos, jsMin]

theorem fitToContainer_formula_app :
    (fitToContainer (some ⟨500, 500⟩) (some ⟨1000, 2000⟩) initViewerState).scale =
      .fin (225/1000) :=
  (fitToContainer_formula ⟨500, 500⟩ ⟨1000, 2000⟩ initViewerState
    (by norm_num) (by norm_num)).2.2

/-- C7 counterexample: on a state with offset (5, 5), fitToContainer with a
500×500 container and a zero-width (0×100) content box is not a no-op: the
source guards only against missing refs, so it still resets the offset to
(0, 0) and recomputes the scale (through a JS division by zero), refuting
the claim that zero-sized geometry leaves the state unchanged. -/
theorem fit_zero_size_not_noop :
    fitToContainer (some ⟨500, 500⟩) (some ⟨0, 100⟩)
        { scale := .fin 1, position := ⟨5, 5⟩, isDragging := false, dragStart := ⟨0, 0⟩ } ≠
      { scale := .fin 1, position := ⟨5, 5⟩, isDragging := false, dragStart := ⟨0, 0⟩ } := by
  intro h
  have h5 := congrArg (fun t => t.position.x) h
  norm_num [fitToContainer, jsDivNN, jsMulPos, jsMin] at h5

/-- C7 (amended): fitToContainer is a no-op only when the container ref or
the content ref is missing; zero dimensions are not guarded: with a
zero-width content box the division by zero is performed under JS number
semantics (500/0 = Infinity, which Math.min caps at 1, so the scale becomes
0.9) and the offset is still reset to (0, 0), and when the container width
and content width are both zero the 0/0 division makes the scale NaN — a
non-finite scale is produced. -/
theorem fit_guard_is_refs_only (oc ov : Option Rect) (c v : Rect) (s : ViewerState) :
    fitToContainer none ov s = s ∧
    fitToContainer oc none s = s ∧
    (fitToContainer (some ⟨0, c.height⟩) (some ⟨0, v.height⟩) s).scale = .nan ∧
    (fitToContainer (some ⟨500, 500⟩) (some ⟨0, 100⟩) s).scale = .fin (9/10) ∧
    (fitToContainer (some ⟨500, 500⟩) (some ⟨0, 100⟩) s).position = ⟨0, 0⟩ := by
  refine ⟨?_, ?_, ?_, ?_, rfl⟩
  · cases ov <;> rfl
  · cases oc <;> rfl
  · simp [fitToContainer, jsDivNN, jsMin, jsMulPos]
  · norm_num [fitToContainer, jsDivNN, jsMin, jsMulPos]

/-- C8 counterexample: with a DragSession already active (isDragging true,
dragStart (0, 0), offset (0, 0)), beginDrag at pointer (5, 5) changes the
session anchor dragStart to (5, 5): beginDrag is not a no-op on an active
session, refuting the claim. -/
theorem beginDrag_not_noop_when_active :
    handleMouseDown ⟨5, 5⟩
        { scale := .fin 1, position := ⟨0, 0⟩, isDragging := true, dragStart := ⟨0, 0⟩ } ≠
      { scale := .fin 1, position := ⟨0, 0⟩, isDragging := true, dragStart := ⟨0, 0⟩ } := by
  intro h
  have h5 := congrArg (fun t => t.dragStart.x) h
  norm_num [handleMouseDown] at h5

/-- C8 (amended): beginDrag always (re)records the session, active or not:
it sets isDragging and re-anchors dragStart at pointerPos − offset, never
changing scale or offset; repeating beginDrag at the same pointer position
equals a single beginDrag, but a repeat at a different pointer position
moves the anchor, so beginDrag is not a no-op on an active session. -/
theorem beginDrag_overwrites_session (s : ViewerState) (p : Pt) :
    handleMouseDown p (handleMouseDown p s) = handleMouseDown p s ∧
    (handleMouseDown p s).scale = s.scale ∧
    (handleMouseDown p s).position = s.position ∧
    (handleMouseDown p s).isDragging = true :=
  ⟨rfl, rfl, rfl, rfl⟩
